import Mathlib

/-!
Verification development for the `memory_statistics` CLI layer of
sonic-utilities.

Two sources are embedded:

* `show/memory_statistics.py` (present in the repository) — the per-field
  CONFIG_DB reader `get_memory_statistics_config` and the log fetcher
  `fetch_memory_statistics`.

* the IPC client module under test in `tests/show_memory_statistics_test.py`
  (`Config`, `Dict2Obj`, `SonicDBConnector`, `SocketManager`, the time-window
  validator).  That module's implementation is not part of the source tree —
  only its tests are — so its operations are modelled from the specification,
  with the repository's tests fixing observable details the spec leaves open.
-/

namespace MemStats

mutual

/-- Modelled from the spec: the payloads handled by the `Dict2Obj` adapter are
arbitrary nested mappings/sequences whose leaves are scalars or text.  `Value`
is the shallow embedding of such a payload: strings, integers, booleans, null,
mappings (ordered key/value fields) and sequences.  The field and element
lists are spelled as the mutually inductive `Fields`/`Elems` so that all
recursion over payloads is structural. -/
inductive Value : Type where
  | vstr (s : String)
  | vint (n : Int)
  | vbool (b : Bool)
  | vnull
  | vdict (fields : Fields)
  | vlist (elems : Elems)

/-- Ordered association list of mapping fields of a `Value`. -/
inductive Fields : Type where
  | nil
  | cons (key : String) (value : Value) (rest : Fields)

/-- Ordered list of sequence elements of a `Value`. -/
inductive Elems : Type where
  | nil
  | cons (value : Value) (rest : Elems)

end

mutual

/-- Modelled from the spec: the navigable object graph produced by `Dict2Obj`.
An object is built either from a mapping (each key becomes an attribute) or
from a bare sequence (exposed under the fixed `items` accessor). -/
inductive Obj : Type where
  | omap (fields : OFields)
  | oitems (elems : OElems)

/-- An attribute value inside a navigable object: a recursively wrapped
mapping, a sequence of per-element wrappings, or a scalar kept as-is. -/
inductive Attr : Type where
  | aobj (o : Obj)
  | alist (es : OElems)
  | araw (v : Value)

/-- Attribute list of a navigable object built from a mapping. -/
inductive OFields : Type where
  | nil
  | cons (key : String) (attr : Attr) (rest : OFields)

/-- Element list of a wrapped sequence. -/
inductive OElems : Type where
  | nil
  | cons (e : OElem) (rest : OElems)

/-- One element of a wrapped sequence: a mapping-typed element is recursively
wrapped, any other element is kept as-is. -/
inductive OElem : Type where
  | eobj (o : Obj)
  | eraw (v : Value)

end

mutual

/-- Modelled from the spec: how `Dict2Obj` turns one mapping value into an
attribute — a mapping is recursively wrapped, a sequence becomes an indexed
collection of per-element wrappings, anything else is kept as-is. -/
def attrOf : Value → Attr
  | .vdict fs => .aobj (.omap (fieldsOf fs))
  | .vlist es => .alist (elemsOf es)
  | v => .araw v

/-- Wraps every field value of a mapping via `attrOf`. -/
def fieldsOf : Fields → OFields
  | .nil => .nil
  | .cons k v rest => .cons k (attrOf v) (fieldsOf rest)

/-- Wraps every element of a sequence via `elemOf`. -/
def elemsOf : Elems → OElems
  | .nil => .nil
  | .cons v rest => .cons (elemOf v) (elemsOf rest)

/-- Modelled from the spec: a sequence element that is itself a mapping is
recursively wrapped; a non-mapping element is kept as-is. -/
def elemOf : Value → OElem
  | .vdict fs => .eobj (.omap (fieldsOf fs))
  | v => .eraw v

end

/-- Whether a `Value` is a container (mapping or sequence) — the only roots
`Dict2Obj` accepts. -/
def isContainer : Value → Bool
  | .vdict _ => true
  | .vlist _ => true
  | _ => false

/-- Modelled from the spec: `Dict2Obj.__init__`.  A mapping root becomes an
object whose attributes are the wrapped fields; a bare sequence root is
exposed under `items`; any other root (scalar, text) fails with `ValueError`.
The error side of `Except` stands for a raised `ValueError`. -/
def dict2Obj : Value → Except String Obj
  | .vdict fs => .ok (.omap (fieldsOf fs))
  | .vlist es => .ok (.oitems (elemsOf es))
  | _ => .error "Input should be a dictionary or a list"

mutual

/-- Modelled from the spec: `Dict2Obj.to_dict`, the inverse of construction —
an object built from a mapping reproduces the mapping, one built from a bare
sequence reproduces the sequence. -/
def objToDict : Obj → Value
  | .omap fs => .vdict (fieldsBack fs)
  | .oitems es => .vlist (elemsBack es)

/-- Converts each stored attribute back to its original field value. -/
def fieldsBack : OFields → Fields
  | .nil => .nil
  | .cons k a rest => .cons k (attrBack a) (fieldsBack rest)

/-- Converts one stored attribute back: a wrapped object recurses through
`to_dict`, a wrapped sequence rebuilds the sequence, a raw value is returned
unchanged. -/
def attrBack : Attr → Value
  | .aobj o => objToDict o
  | .alist es => .vlist (elemsBack es)
  | .araw v => v

/-- Converts each stored sequence element back to its original value. -/
def elemsBack : OElems → Elems
  | .nil => .nil
  | .cons e rest => .cons (elemBack e) (elemsBack rest)

/-- Converts one stored sequence element back to its original value. -/
def elemBack : OElem → Value
  | .eobj o => objToDict o
  | .eraw v => v

end

/-- The concrete payload used by the repository's round-trip test
`test_to_dict_conversion`. -/
def testPayload : Value :=
  .vdict (.cons "name" (.vstr "test")
    (.cons "nested" (.vdict (.cons "key" (.vstr "value") .nil))
      (.cons "list" (.vlist (.cons (.vdict (.cons "item" (.vint 1) .nil))
        (.cons (.vdict (.cons "item" (.vint 2) .nil)) .nil))) .nil)))

/-- Modelled from the spec: `Config.MAX_RETRIES`, the bound on socket connect
attempts (default 3, also asserted by `test_default_values`). -/
def MAX_RETRIES : Nat := 3

/-- Modelled from the spec: `Config.SOCKET_PATH`, the default socket path. -/
def SOCKET_PATH : String := "/var/run/dbus/memstats.socket"

/-- Errors raised by the socket session manager.  The spec's error taxonomy
names both a `ConfigurationError` and a `ConnectionError`, so both appear as
constructors; each carries the raised message. -/
inductive SMErr : Type where
  | configurationError (msg : String)
  | connectionError (msg : String)

/-- The message raised when the socket path's parent directory is missing,
exactly as pinned by `test_validate_socket_path_failure`. -/
def missingDirMsg (dir : String) : String :=
  "Socket directory " ++ dir ++ " does not exist"

/-- Modelled from the spec: `SocketManager._validate_socket_path`, which
checks that the parent directory `dir` of the socket path exists before any
connect attempt.  The spec's prose says the failure is a `ConfigurationError`,
but the repository's test `test_validate_socket_path_failure` asserts
`ConnectionError` with the exact message `missingDirMsg`; the test is
followed. -/
def validate_socket_path (dir : String) (dirExists : Bool) : Except SMErr Unit :=
  if dirExists then .ok () else .error (.connectionError (missingDirMsg dir))

/-- Modelled from the spec: the bounded connect-retry loop inside
`SocketManager.connect`.  `prim i` is the outcome of the `i`-th invocation of
the underlying connect primitive (`Except.error e` standing for a raised
`socket.error` with message `e`), `fuel` is the number of attempts still
allowed, and `lastErr` the message of the most recent failure.  Returns the
total number of primitive invocations performed together with the outcome; on
exhausting the retries the result is a `ConnectionError` wrapping the last
underlying failure. -/
def connectLoop (prim : Nat → Except String Unit) :
    Nat → Nat → String → Nat × Except SMErr Unit
  | i, 0, lastErr => (i, .error (.connectionError lastErr))
  | i, fuel + 1, _ =>
    match prim i with
    | .ok _ => (i + 1, .ok ())
    | .error e => connectLoop prim (i + 1) fuel e

/-- Modelled from the spec: `SocketManager.connect`.  First validates the
socket path's parent directory (`dirExists` abstracts `os.path.exists`); on
failure it surfaces that error with zero connect attempts.  Otherwise it runs
the retry loop for up to `MAX_RETRIES` attempts. -/
def connect (dir : String) (dirExists : Bool) (prim : Nat → Except String Unit) :
    Nat × Except SMErr Unit :=
  match validate_socket_path dir dirExists with
  | .error e => (0, .error e)
  | .ok _ => connectLoop prim 0 MAX_RETRIES "connection failed"

/-- Whether a socket-manager outcome is the spec's `ConfigurationError`. -/
def errIsConfiguration : Except SMErr Unit → Bool
  | .error (.configurationError _) => true
  | _ => false

/-- A connect primitive that fails once and then succeeds (one retry). -/
def primOneFail : Nat → Except String Unit :=
  fun i => if i == 0 then .error "connection refused" else .ok ()

/-- A connect primitive that fails on every attempt. -/
def primAllFail : Nat → Except String Unit :=
  fun _ => .error "connection refused"

/-- Modelled from the spec: `SocketManager.receive_all`, which reads chunks
repeatedly until a zero-length read signals end of stream, then returns the
decoded concatenation.  The argument is the sequence of (decoded) chunks the
successive reads return; the empty string is the zero-length read. -/
def receive_all : List String → String
  | [] => ""
  | chunk :: rest => if chunk = "" then "" else chunk ++ receive_all rest

/-- Concatenation of a chunk list, the reference value for `receive_all`. -/
def joinAll : List String → String
  | [] => ""
  | s :: rest => s ++ joinAll rest

/-- Modelled from the spec: `SocketManager.close`.  `sock` is the stored
handle (if any) and `primClose h` the outcome of the underlying close
primitive on handle `h` (`Except.error` standing for a raised exception,
which `close` catches and at most logs).  The result is `Except.ok` of the
new stored handle: an `Except.error` result would model `close` itself
raising, which never happens, and the stored handle is unconditionally
cleared. -/
def close (sock : Option Nat) (primClose : Nat → Except String Unit) :
    Except String (Option Nat) :=
  match sock with
  | none => .ok none
  | some h =>
    match primClose h with
    | .ok _ => .ok none
    | .error _ => .ok none

/-- Modelled from the spec: `Config.DEFAULT_CONFIG`, the fixed default
feature-configuration record substituted when the provider returns an
empty/missing record (values asserted by `test_default_values`). -/
def DEFAULT_CONFIG : List (String × String) :=
  [("enabled", "false"), ("retention_period", "Unknown"),
    ("sampling_interval", "Unknown")]

/-- Modelled from the spec: `SonicDBConnector.get_memory_statistics_config`.
`provider` is the outcome of the external config provider's
`get_table("MEMORY_STATISTICS")` call (`Except.error e` standing for a raised
exception with message `e`, `Except.ok tbl` for the returned table).  A
provider failure is re-raised as a `RuntimeError` carrying the description
and the original cause; an empty or missing `memory_statistics` record is
substituted by `DEFAULT_CONFIG`; otherwise the record is returned as-is. -/
def get_memory_statistics_config
    (provider : Except String (List (String × List (String × String)))) :
    Except String (List (String × String)) :=
  match provider with
  | .error e =>
    .error ("Error retrieving memory statistics configuration: " ++ e)
  | .ok tbl =>
    let cfg := (List.lookup "memory_statistics" tbl).getD []
    if cfg.isEmpty then .ok DEFAULT_CONFIG else .ok cfg

/-- Splits a character list at every occurrence of `sep`, keeping empty
groups, mirroring Python `str.split(sep)` on a nonempty separator. -/
def splitChars (sep : Char) : List Char → List (List Char)
  | [] => [[]]
  | c :: rest =>
    if c = sep then [] :: splitChars sep rest
    else
      match splitChars sep rest with
      | [] => [[c]]
      | g :: gs => (c :: g) :: gs

/-- Splits a string at every occurrence of the character `sep`. -/
def splitOnChar (sep : Char) (s : String) : List String :=
  (splitChars sep s.toList).map String.mk

/-- Accumulating decimal parser over a character list: fails on the first
non-digit character. -/
def digitsToNat : List Char → Nat → Option Nat
  | [], acc => some acc
  | c :: rest, acc =>
    if c.isDigit then digitsToNat rest (acc * 10 + (c.toNat - 48)) else none

/-- Parses a nonempty all-digit string as a natural number. -/
def strToNat : String → Option Nat
  | s =>
    match s.toList with
    | [] => none
    | cs => digitsToNat cs 0

/-- Modelled from the spec: the time units accepted in relative expressions
`<integer> <unit> ago`, each mapped to its length in minutes. -/
def unitMinutes : String → Option Nat
  | "minute" => some 1
  | "minutes" => some 1
  | "hour" => some 60
  | "hours" => some 60
  | "day" => some 1440
  | "days" => some 1440
  | _ => none

/-- Modelled from the spec: parsing of an ISO-like absolute date
`YYYY-MM-DD`, mapped to a minute count that is strictly monotone in the
(year, month, day) lexicographic order. -/
def parseDate (s : String) : Option Int :=
  match splitOnChar (Char.ofNat 45) s with
  | [y, m, d] =>
    match strToNat y, strToNat m, strToNat d with
    | some yn, some mn, some dn =>
      if 1 ≤ mn ∧ mn ≤ 12 ∧ 1 ≤ dn ∧ dn ≤ 31 then
        some ((((yn * 12 + (mn - 1)) * 31 + (dn - 1)) * 1440 : Nat) : Int)
      else none
    | _, _, _ => none
  | _ => none

/-- Modelled from the spec: `parse_time`, the time-expression parser of the
time-window validator.  `now` is the current time in minutes.  The grammar is
the spec's fixed one: the literal `now`, a relative expression
`<integer> <unit> ago`, or an ISO-like absolute date; anything else fails. -/
def parse_time (now : Int) (s : String) : Option Int :=
  if s = "now" then some now
  else
    match splitOnChar (Char.ofNat 32) s with
    | [nStr, unit, "ago"] =>
      match strToNat nStr, unitMinutes unit with
      | some n, some u => some (now - ((n * u : Nat) : Int))
      | _, _ => none
    | [_] => parseDate s
    | _ => none

/-- Modelled from the spec: the configured maximum span of a time window,
30 days expressed in minutes. -/
def maxSpanMinutes : Int := ((30 * 1440 : Nat) : Int)

/-- The validation error for unparseable endpoints. -/
def invalidFormatMsg : String := "invalid time format"

/-- The validation error for a `from` endpoint later than `to`. -/
def orderingMsg : String := "from time cannot be later than to time"

/-- The validation error for a span exceeding the configured maximum. -/
def rangeMsg : String := "time range cannot exceed 30 days"

/-- Modelled from the spec: the time-window validator.  Runs its three checks
in a fixed order with short-circuiting: (1) both endpoints must parse,
(2) `from` must not be later than `to`, (3) the span must not exceed the
configured maximum. -/
def validate_time_range (now : Int) (fromS toS : String) :
    Except String (Int × Int) :=
  match parse_time now fromS, parse_time now toS with
  | some f, some t =>
    if t < f then .error orderingMsg
    else if maxSpanMinutes < t - f then .error rangeMsg
    else .ok (f, t)
  | _, _ => .error invalidFormatMsg

/-- Modelled from the spec: the statistics-query flow around the validator.
The window is validated first and the remote client `fetchRemote` is invoked
only when validation passes; the second component counts how many times the
remote client was touched. -/
def run_stats_query (now : Int) (fromS toS : String)
    (fetchRemote : Int × Int → List String) :
    Except String (List String) × Nat :=
  match validate_time_range now fromS toS with
  | .error e => (.error e, 0)
  | .ok w => (.ok (fetchRemote w), 1)

end MemStats

namespace ShowMemoryStatistics

/-- Python exceptions raised by `show/memory_statistics.py`: a `KeyError` on
a missing dictionary key, or a `TypeError` from an unsupported comparison. -/
inductive PyErr : Type where
  | keyError (key : String)
  | typeError (msg : String)

/-- Embedding of `get_memory_statistics_config` from
`show/memory_statistics.py` (lines 17-36).  `tbl` is the
`MEMORY_STATISTICS` table returned by `config_db.get_table`, a dictionary of
sub-dictionaries modelled as an ordered association list.  The source guards
the read with `table and "memory_statistics" in table and field_name in
table["config"]` (short-circuit `and`), so evaluating the third conjunct
raises `KeyError("config")` whenever the table is nonempty, contains
`"memory_statistics"` and lacks `"config"`; the value itself is then read
from `table["memory_statistics"][field_name]`. -/
def get_memory_statistics_config (field_name : String)
    (tbl : List (String × List (String × String))) : Except PyErr String :=
  if tbl.isEmpty then .ok "Unknown"
  else
    if (List.lookup "memory_statistics" tbl).isSome then
      match List.lookup "config" tbl with
      | none => .error (.keyError "config")
      | some cfg =>
        if (List.lookup field_name cfg).isSome then
          match List.lookup "memory_statistics" tbl with
          | none => .error (.keyError "memory_statistics")
          | some ms =>
            match List.lookup field_name ms with
            | none => .error (.keyError field_name)
            | some v => .ok v
        else .ok "Unknown"
    else .ok "Unknown"

/-- Python's `entry.get("time") >= starting_time`: comparing `None` with a
string raises `TypeError`; otherwise string comparison is lexicographic on
code points, matching Lean's `String` order. -/
def cmpGe (entryTime : Option String) (bound : String) : Except PyErr Bool :=
  match entryTime with
  | none => .error (.typeError "unsupported comparison of NoneType and str")
  | some t => .ok (decide (bound ≤ t))

/-- Python's `entry.get("time") <= ending_time`, with the same `TypeError`
behavior on a missing `time` field. -/
def cmpLe (entryTime : Option String) (bound : String) : Except PyErr Bool :=
  match entryTime with
  | none => .error (.typeError "unsupported comparison of NoneType and str")
  | some t => .ok (decide (t ≤ bound))

/-- The first conjunct of the source's filter:
`not starting_time or entry.get("time") >= starting_time`.  A `None` or empty
`starting_time` is falsy, short-circuiting the comparison. -/
def cond1 (starting : Option String) (entry : List (String × String)) :
    Except PyErr Bool :=
  match starting with
  | none => .ok true
  | some s => if s == "" then .ok true else cmpGe (List.lookup "time" entry) s

/-- The second conjunct of the source's filter:
`not ending_time or entry.get("time") <= ending_time`. -/
def cond2 (ending : Option String) (entry : List (String × String)) :
    Except PyErr Bool :=
  match ending with
  | none => .ok true
  | some s => if s == "" then .ok true else cmpLe (List.lookup "time" entry) s

/-- The source's whole filter condition: a short-circuit `and` of `cond1` and
`cond2`, so `cond2` is never evaluated when `cond1` is false. -/
def entry_passes (starting ending : Option String)
    (entry : List (String × String)) : Except PyErr Bool := do
  let b1 ← cond1 starting entry
  if b1 then cond2 ending entry else pure false

/-- The source's iteration over `memory_statistics_table.items()`, appending
each entry that passes the filter and propagating the first raised
exception. -/
def filter_entries (starting ending : Option String) :
    List (String × List (String × String)) →
      Except PyErr (List (List (String × String)))
  | [] => .ok []
  | (_, entry) :: rest => do
    let b ← entry_passes starting ending entry
    let tail ← filter_entries starting ending rest
    pure (if b then entry :: tail else tail)

/-- Embedding of `fetch_memory_statistics` from `show/memory_statistics.py`
(lines 55-79).  `tbl` is the `MEMORY_STATISTICS` table returned by
`config_db.get_table`.  The `select` parameter is accepted, as in the source,
whose body never reads it (the loop only filters on `starting_time` and
`ending_time`; the comment in the source merely notes that select-based
filtering could be implemented). -/
def fetch_memory_statistics (starting_time ending_time select : Option String)
    (tbl : List (String × List (String × String))) :
    Except PyErr (List (List (String × String))) :=
  filter_entries starting_time ending_time tbl

end ShowMemoryStatistics

namespace MemStats

mutual

/-- Round-trip of a single mapping field value through the adapter. -/
theorem attrBack_attrOf : (v : Value) → attrBack (attrOf v) = v
  | .vstr _ => rfl
  | .vint _ => rfl
  | .vbool _ => rfl
  | .vnull => rfl
  | .vdict fs => congrArg Value.vdict (fieldsBack_fieldsOf fs)
  | .vlist es => congrArg Value.vlist (elemsBack_elemsOf es)

/-- Round-trip of a mapping's field list through the adapter. -/
theorem fieldsBack_fieldsOf : (fs : Fields) → fieldsBack (fieldsOf fs) = fs
  | .nil => rfl
  | .cons k v rest => by
      show Fields.cons k (attrBack (attrOf v)) (fieldsBack (fieldsOf rest)) =
        Fields.cons k v rest
      rw [attrBack_attrOf v, fieldsBack_fieldsOf rest]

/-- Round-trip of a sequence's element list through the adapter. -/
theorem elemsBack_elemsOf : (es : Elems) → elemsBack (elemsOf es) = es
  | .nil => rfl
  | .cons v rest => by
      show Elems.cons (elemBack (elemOf v)) (elemsBack (elemsOf rest)) =
        Elems.cons v rest
      rw [elemBack_elemOf v, elemsBack_elemsOf rest]

/-- Round-trip of a single sequence element through the adapter. -/
theorem elemBack_elemOf : (v : Value) → elemBack (elemOf v) = v
  | .vstr _ => rfl
  | .vint _ => rfl
  | .vbool _ => rfl
  | .vnull => rfl
  | .vdict fs => congrArg Value.vdict (fieldsBack_fieldsOf fs)
  | .vlist _ => rfl

end

/-- C1: for every valid nested mapping or sequence `m` (a container root),
converting `m` with the `Dict2Obj` adapter and then applying `to_dict` yields
exactly `m` again — same keys, same nesting, same list ordering. -/
theorem dict2Obj_toDict_round_trip (v : Value) (h : isContainer v = true) :
    (dict2Obj v).map objToDict = Except.ok v := by
  cases v with
  | vdict fs =>
      show Except.ok (objToDict (.omap (fieldsOf fs))) = Except.ok (Value.vdict fs)
      rw [show objToDict (.omap (fieldsOf fs)) = Value.vdict (fieldsBack (fieldsOf fs)) from rfl,
        fieldsBack_fieldsOf fs]
  | vlist es =>
      show Except.ok (objToDict (.oitems (elemsOf es))) = Except.ok (Value.vlist es)
      rw [show objToDict (.oitems (elemsOf es)) = Value.vlist (elemsBack (elemsOf es)) from rfl,
        elemsBack_elemsOf es]
  | vstr s => simp [isContainer] at h
  | vint n => simp [isContainer] at h
  | vbool b => simp [isContainer] at h
  | vnull => simp [isContainer] at h

/-- Witness for C1: the round-trip law evaluated on the concrete payload of
the repository's `test_to_dict_conversion` test. -/
theorem dict2Obj_toDict_round_trip_witness :
    isContainer testPayload = true ∧
      (dict2Obj testPayload).map objToDict = Except.ok testPayload :=
  ⟨rfl, dict2Obj_toDict_round_trip testPayload rfl⟩

/-- C8: `Dict2Obj` construction from any non-container root (scalar or text)
fails with a `ValueError`; construction succeeds exactly on mappings and
sequences. -/
theorem dict2Obj_scalar_valueError (v : Value) (h : isContainer v = false) :
    dict2Obj v = Except.error "Input should be a dictionary or a list" := by
  cases v with
  | vdict fs => simp [isContainer] at h
  | vlist es => simp [isContainer] at h
  | vstr s => rfl
  | vint n => rfl
  | vbool b => rfl
  | vnull => rfl

/-- Witness for C8: constructing from the string "invalid" (the repository's
`test_invalid_input` case) fails with the `ValueError`. -/
theorem dict2Obj_scalar_valueError_witness :
    isContainer (Value.vstr "invalid") = false ∧
      dict2Obj (Value.vstr "invalid") =
        Except.error "Input should be a dictionary or a list" :=
  ⟨rfl, dict2Obj_scalar_valueError (Value.vstr "invalid") rfl⟩

/-- Counterexample for C2: with the socket directory missing, `connect` as
pinned by the repository's test `test_validate_socket_path_failure` fails
with a `ConnectionError` naming the directory — not with the
`ConfigurationError` the claim asserts. -/
theorem connect_missing_dir_counterexample :
    connect "/tmp" false primAllFail =
      (0, Except.error (SMErr.connectionError
        "Socket directory /tmp does not exist")) ∧
    errIsConfiguration (connect "/tmp" false primAllFail).2 = false :=
  ⟨rfl, rfl⟩

/-- C2 (amended): when the parent directory of the configured socket path
does not exist, `connect` fails fast with a `ConnectionError` naming the
missing directory and performs zero connect attempts (no retries), for every
behavior of the underlying connect primitive. -/
theorem connect_missing_dir_fails_fast (dir : String)
    (prim : Nat → Except String Unit) :
    connect dir false prim =
      (0, Except.error (SMErr.connectionError
        ("Socket directory " ++ dir ++ " does not exist"))) :=
  rfl

/-- Helper: when every attempt in the remaining fuel fails, the retry loop
uses up all the fuel and surfaces a `ConnectionError` wrapping the message of
the last failure. -/
theorem connectLoop_all_fail (prim : Nat → Except String Unit)
    (msg : Nat → String) :
    ∀ fuel i lastErr, 0 < fuel →
      (∀ j, i ≤ j → j < i + fuel → prim j = .error (msg j)) →
      connectLoop prim i fuel lastErr =
        (i + fuel, .error (.connectionError (msg (i + fuel - 1)))) := by
  intro fuel
  induction fuel with
  | zero => intro i lastErr hpos; exact absurd hpos (lt_irrefl 0)
  | succ n ih =>
    intro i lastErr _ hfail
    have hpi : prim i = .error (msg i) := hfail i (le_refl i) (by omega)
    cases n with
    | zero => simp [connectLoop, hpi]
    | succ m =>
      have hrec := ih (i + 1) (msg i) (by omega)
        (fun j hj1 hj2 => hfail j (by omega) (by omega))
      calc connectLoop prim i (m + 1 + 1) lastErr
          = connectLoop prim (i + 1) (m + 1) (msg i) := by
            simp [connectLoop, hpi]
        _ = (i + 1 + (m + 1),
              .error (.connectionError (msg (i + 1 + (m + 1) - 1)))) := hrec
        _ = (i + (m + 1 + 1),
              .error (.connectionError (msg (i + (m + 1 + 1) - 1)))) := by
            have h2 : i + 1 + (m + 1) = i + (m + 1 + 1) := by omega
            rw [h2]

/-- Helper: when the first `k` attempts fail and attempt `k` succeeds within
the remaining fuel, the retry loop stops after `k + 1` invocations with
success. -/
theorem connectLoop_succeeds (prim : Nat → Except String Unit) :
    ∀ k i fuel lastErr, k < fuel →
      (∀ j, j < k → ∃ e, prim (i + j) = .error e) →
      prim (i + k) = .ok () →
      connectLoop prim i fuel lastErr = (i + k + 1, .ok ()) := by
  intro k
  induction k with
  | zero =>
    intro i fuel lastErr hk _ hok
    cases fuel with
    | zero => exact absurd hk (lt_irrefl 0)
    | succ m =>
      rw [Nat.add_zero] at hok
      simp [connectLoop, hok]
  | succ n ih =>
    intro i fuel lastErr hk hfail hok
    cases fuel with
    | zero => exact absurd hk (Nat.not_lt_zero _)
    | succ m =>
      obtain ⟨e, he⟩ := hfail 0 (by omega)
      rw [Nat.add_zero] at he
      have hfail' : ∀ j, j < n → ∃ e, prim (i + 1 + j) = .error e := by
        intro j hj
        obtain ⟨e', he'⟩ := hfail (j + 1) (by omega)
        exact ⟨e', by rw [show i + 1 + j = i + (j + 1) from by omega]; exact he'⟩
      have hok' : prim (i + 1 + n) = .ok () := by
        rw [show i + 1 + n = i + (n + 1) from by omega]; exact hok
      calc connectLoop prim i (m + 1) lastErr
          = connectLoop prim (i + 1) m e := by simp [connectLoop, he]
        _ = (i + 1 + n + 1, .ok ()) := ih (i + 1) m e (by omega) hfail' hok'
        _ = (i + (n + 1) + 1, .ok ()) := by
            rw [show i + 1 + n = i + (n + 1) from by omega]

/-- C3: for every `k`, if the underlying connect primitive fails exactly `k`
times and then succeeds with `k < MAX_RETRIES`, `connect` succeeds with
exactly `k + 1` primitive invocations; and if the primitive fails
`MAX_RETRIES` times, `connect` fails with a `ConnectionError` wrapping the
last failure after exactly `MAX_RETRIES` invocations. -/
theorem connect_retry_behavior :
    (∀ (dir : String) (prim : Nat → Except String Unit) (k : Nat),
      k < MAX_RETRIES →
      (∀ j, j < k → ∃ e, prim j = .error e) →
      prim k = .ok () →
      connect dir true prim = (k + 1, .ok ())) ∧
    (∀ (dir : String) (prim : Nat → Except String Unit) (msg : Nat → String),
      (∀ j, j < MAX_RETRIES → prim j = .error (msg j)) →
      connect dir true prim =
        (MAX_RETRIES, .error (.connectionError (msg (MAX_RETRIES - 1))))) := by
  constructor
  · intro dir prim k hk hfail hok
    have h := connectLoop_succeeds prim k 0 MAX_RETRIES "connection failed" hk
      (fun j hj => by rw [Nat.zero_add]; exact hfail j hj)
      (by rw [Nat.zero_add]; exact hok)
    rw [Nat.zero_add] at h
    exact h
  · intro dir prim msg hfail
    have h := connectLoop_all_fail prim msg MAX_RETRIES 0 "connection failed"
      (by decide) (fun j hj1 hj2 => hfail j (by omega))
    rw [Nat.zero_add] at h
    exact h

/-- Witness for C3: a primitive failing once then succeeding yields success
after 2 invocations (`test_connection_retry`); a primitive failing on all 3
attempts yields a `ConnectionError` wrapping the last failure after exactly 3
invocations. -/
theorem connect_retry_behavior_witness :
    connect "/tmp" true primOneFail = (2, .ok ()) ∧
    connect "/tmp" true primAllFail =
      (3, .error (.connectionError "connection refused")) := by
  constructor
  · exact connect_retry_behavior.1 "/tmp" primOneFail 1 (by decide)
      (fun j hj => ⟨"connection refused", by
        have hj0 : j = 0 := by omega
        subst hj0; rfl⟩)
      rfl
  · exact connect_retry_behavior.2 "/tmp" primAllFail
      (fun _ => "connection refused") (fun j _ => rfl)

/-- C6: `close` never raises — even when the underlying close primitive
raises — and after every call the session holds no active handle; in
particular a second `close` on the already-cleared session again returns
normally with no handle, so `close` is idempotent. -/
theorem close_never_raises_and_clears (sock : Option Nat)
    (primClose : Nat → Except String Unit) :
    close sock primClose = Except.ok none := by
  cases sock with
  | none => rfl
  | some h => cases hp : primClose h <;> simp [close, hp]

/-- C7: for every finite sequence of reads ending in a zero-length read,
`receive_all` returns the concatenation of all chunks read before the
zero-length read, and returns the empty string when the peer closes
immediately. -/
theorem receive_all_concat (chunks rest : List String)
    (h : ∀ c ∈ chunks, c ≠ "") :
    receive_all (chunks ++ "" :: rest) = joinAll chunks ∧
    receive_all ("" :: rest) = "" := by
  constructor
  · induction chunks with
    | nil => simp [receive_all, joinAll]
    | cons c cs ih =>
      have hc : c ≠ "" := h c (List.mem_cons_self c cs)
      have ihh := ih (fun x hx => h x (List.mem_cons_of_mem c hx))
      simp [receive_all, joinAll, hc, ihh]
  · simp [receive_all]

/-- Witness for C7: reads `["a", "b", ""]` yield `"ab"`
(`test_receive_all_success` reads `[b'test', b'data', b'']` the same way),
and an immediate zero-length read yields `""`. -/
theorem receive_all_concat_witness :
    receive_all ["a", "b", ""] = joinAll ["a", "b"] ∧
    joinAll ["a", "b"] = "ab" ∧
    receive_all [""] = "" :=
  ⟨(receive_all_concat ["a", "b"] [] (by decide)).1, by decide,
    (receive_all_concat ["a", "b"] [] (by decide)).2⟩

/-- C5: `get_config` distinguishes an empty provider result from an erroring
provider — an empty/missing `memory_statistics` record yields the fixed
`DEFAULT_CONFIG` without error, and a provider failure is re-raised as a
`RuntimeError` whose message is the fixed description followed by the
original cause. -/
theorem get_config_default_and_error_paths :
    (∀ tbl : List (String × List (String × String)),
      ((List.lookup "memory_statistics" tbl).getD []).isEmpty = true →
      get_memory_statistics_config (Except.ok tbl) =
        Except.ok DEFAULT_CONFIG) ∧
    (∀ e : String,
      get_memory_statistics_config (Except.error e) =
        Except.error
          ("Error retrieving memory statistics configuration: " ++ e)) := by
  constructor
  · intro tbl h
    simp [get_memory_statistics_config, h]
  · intro e
    rfl

/-- Witness for C5: the empty table yields `DEFAULT_CONFIG`
(`test_get_default_config`), and a provider failure "Database error" is
wrapped with the fixed description
(`test_get_memory_statistics_config_error`). -/
theorem get_config_default_and_error_paths_witness :
    get_memory_statistics_config (Except.ok []) = Except.ok DEFAULT_CONFIG ∧
    get_memory_statistics_config (Except.error "Database error") =
      Except.error
        ("Error retrieving memory statistics configuration: " ++
          "Database error") :=
  ⟨get_config_default_and_error_paths.1 [] rfl,
    get_config_default_and_error_paths.2 "Database error"⟩

/-- C4: time-window validation runs its three checks in a fixed order and
short-circuits — unparseable input fails with the "invalid time format"
error; otherwise `from` later than `to` fails with the ordering error;
otherwise a span exceeding the configured maximum fails with the range
error; and for every invalid window the remote client is invoked zero
times. -/
theorem time_window_validation_order :
    (∀ (now : Int) (fromS toS : String),
      parse_time now fromS = none ∨ parse_time now toS = none →
      validate_time_range now fromS toS = .error invalidFormatMsg) ∧
    (∀ (now : Int) (fromS toS : String) (f t : Int),
      parse_time now fromS = some f → parse_time now toS = some t →
      t < f →
      validate_time_range now fromS toS = .error orderingMsg) ∧
    (∀ (now : Int) (fromS toS : String) (f t : Int),
      parse_time now fromS = some f → parse_time now toS = some t →
      f ≤ t → maxSpanMinutes < t - f →
      validate_time_range now fromS toS = .error rangeMsg) ∧
    (∀ (now : Int) (fromS toS : String) (e : String)
      (fetchRemote : Int × Int → List String),
      validate_time_range now fromS toS = .error e →
      run_stats_query now fromS toS fetchRemote = (.error e, 0)) := by
  refine ⟨?_, ?_, ?_, ?_⟩
  · intro now fromS toS h
    cases hf : parse_time now fromS <;> cases ht : parse_time now toS <;>
      simp [validate_time_range, hf, ht] <;> rcases h with h | h <;>
      simp_all
  · intro now fromS toS f t hf ht hord
    simp only [validate_time_range]
    rw [hf, ht]
    simp [hord]
  · intro now fromS toS f t hf ht hle hspan
    simp only [validate_time_range]
    rw [hf, ht]
    show (if t < f then Except.error orderingMsg
      else if maxSpanMinutes < t - f then Except.error rangeMsg
      else Except.ok (f, t)) = Except.error rangeMsg
    rw [if_neg (not_lt.mpr hle), if_pos hspan]
  · intro now fromS toS e fetchRemote h
    simp [run_stats_query, h]

/-- Witness for C4, mirroring `test_time_range_validation`: the unparseable
endpoint "invalid time" yields the format error, `from="2024-11-25",
to="2024-11-24"` yields the ordering error, `from="200 days ago", to="now"`
yields the range error, and an invalid window invokes the remote client zero
times. -/
theorem time_window_validation_order_witness :
    validate_time_range 1000000 "invalid time" "now" =
      .error invalidFormatMsg ∧
    validate_time_range 1000000 "2024-11-25" "2024-11-24" =
      .error orderingMsg ∧
    validate_time_range 1000000 "200 days ago" "now" = .error rangeMsg ∧
    run_stats_query 1000000 "invalid time" "now" (fun _ => []) =
      (.error invalidFormatMsg, 0) := by
  refine ⟨?_, ?_, ?_, ?_⟩
  · exact time_window_validation_order.1 1000000 "invalid time" "now"
      (Or.inl rfl)
  · exact time_window_validation_order.2.1 1000000 "2024-11-25" "2024-11-24"
      1084697280 1084695840 rfl rfl (by decide)
  · exact time_window_validation_order.2.2.1 1000000 "200 days ago" "now"
      712000 1000000 rfl rfl (by decide) (by decide)
  · exact time_window_validation_order.2.2.2 1000000 "invalid time" "now"
      invalidFormatMsg (fun _ => [])
      (time_window_validation_order.1 1000000 "invalid time" "now"
        (Or.inl rfl))

end MemStats

namespace ShowMemoryStatistics

/-- C9: for every nonempty `MEMORY_STATISTICS` table that contains the key
"memory_statistics" but not the key "config",
`get_memory_statistics_config(field_name)` raises `KeyError("config")` for
every `field_name` — the membership guard reads `table["config"]` while the
value is read from `table["memory_statistics"]`. -/
theorem get_memory_statistics_config_keyError (field_name : String)
    (tbl : List (String × List (String × String)))
    (h1 : tbl.isEmpty = false)
    (h2 : (List.lookup "memory_statistics" tbl).isSome = true)
    (h3 : List.lookup "config" tbl = none) :
    get_memory_statistics_config field_name tbl =
      Except.error (PyErr.keyError "config") := by
  simp [get_memory_statistics_config, h1, h2, h3]

/-- Witness for C9: the table `{"memory_statistics": {"enabled": "true"}}`
makes the lookup raise `KeyError("config")` even for the present field
"enabled". -/
theorem get_memory_statistics_config_keyError_witness :
    get_memory_statistics_config "enabled"
        [("memory_statistics", [("enabled", "true")])] =
      Except.error (PyErr.keyError "config") :=
  get_memory_statistics_config_keyError "enabled"
    [("memory_statistics", [("enabled", "true")])] rfl rfl rfl

/-- C10: the result of `fetch_memory_statistics` is independent of its
`select` argument — for every table state and time bounds, any two values of
the metric-selection parameter give the same result, because the source's
body never reads `select`. -/
theorem fetch_memory_statistics_select_independent
    (starting_time ending_time s1 s2 : Option String)
    (tbl : List (String × List (String × String))) :
    fetch_memory_statistics starting_time ending_time s1 tbl =
      fetch_memory_statistics starting_time ending_time s2 tbl :=
  rfl

end ShowMemoryStatistics
